import Mathlib

/-!
Verification model of the order-whisperer client session layer: the
request-deduplication cache (promise-sharing and polling variants), the
promise timeout wrapper, the authentication context provider handler and
tenant resolution, the derived role flags, and the POS page route guard.

Each definition is a shallow embedding of the corresponding source
function. The host is single-threaded and event-loop based, so
asynchronous behaviour is modelled by explicit state passing and by lists
of delivery events (promise settlements, timer fires) processed in order;
a promise is identified by the numeric id allocated when it was created,
and a settled promise outcome is a resolution or a rejection.
-/

namespace OrderWhisperer

/-- A settled promise outcome: resolution with a value or rejection with
an error. Errors are modelled by the type `ε` (a string message where a
concrete type is needed, matching the `Error` values the source raises). -/
inductive Outcome (ε : Type) (α : Type) where
  | resolved (v : α)
  | rejected (e : ε)
  deriving DecidableEq

/-! ## Request deduplication cache, promise-sharing variant
(`useRequestDeduplication`, `src/hooks/useRequestDeduplication.tsx`) -/

/-- State of the promise-sharing deduplication cache: `active` is the
`activeRequests` map from key to the in-flight promise (identified by its
allocation id), `nextId` allocates promise ids, and `invs` records every
invocation of an underlying `requestFn`, tagged by key, most recent
first. -/
structure ShareState where
  active : List (String × Nat)
  nextId : Nat
  invs : List String
  deriving DecidableEq

/-- The cache at mount: no in-flight request, no invocation yet. -/
def ShareState.init : ShareState := ⟨[], 0, []⟩

/-- Lookup in the association list backing the `activeRequests` map. -/
def lookupA : List (String × Nat) → String → Option Nat
  | [], _ => none
  | kv :: rest, k => if kv.1 == k then some kv.2 else lookupA rest k

/-- Deletion from the association list backing the `activeRequests` map. -/
def deleteKey (k : String) : List (String × Nat) → List (String × Nat)
  | [] => []
  | kv :: rest => if kv.1 == k then deleteKey k rest else kv :: deleteKey k rest

/-- `activeRequests.current.get(key)`. -/
def lookupActive (s : ShareState) (k : String) : Option Nat :=
  lookupA s.active k

/-- How many times the underlying operation has been invoked for key `k`. -/
def countKey (k : String) : List String → Nat
  | [] => 0
  | k' :: rest => (if k' == k then 1 else 0) + countKey k rest

/-- `executeRequest(key, requestFn)` of the promise-sharing variant: if a
promise for `key` is already in flight, return that promise and leave the
cache unchanged; otherwise invoke `requestFn` once, creating a fresh
promise, register it under `key`, and return it. (The `finally` handler
that evicts the key when the promise settles is the separate
`settleRequest` event below.) -/
def executeRequest (s : ShareState) (k : String) : Nat × ShareState :=
  match lookupActive s k with
  | some p => (p, s)
  | none =>
      (s.nextId,
        { active := (k, s.nextId) :: s.active,
          nextId := s.nextId + 1,
          invs := k :: s.invs })

/-- Settlement (resolution or rejection) of the in-flight promise for
`key`: the `finally` handler runs `activeRequests.current.delete(key)`. -/
def settleRequest (s : ShareState) (k : String) : ShareState :=
  { s with active := deleteKey k s.active }

/-- An event at the deduplication cache: a caller issuing
`executeRequest` for a key, or the settlement of the in-flight promise
for a key. -/
inductive DedupEv where
  | call (k : String)
  | settle (k : String)
  deriving DecidableEq

/-- One event applied to the promise-sharing cache state. -/
def shareStep (s : ShareState) (e : DedupEv) : ShareState :=
  match e with
  | .call k => (executeRequest s k).2
  | .settle k => settleRequest s k

/-- A sequence of events applied to the promise-sharing cache state. -/
def shareRun (s : ShareState) (evs : List DedupEv) : ShareState :=
  evs.foldl shareStep s

/-! ## Request deduplication cache, polling variant
(`src/unnamed/part_000`, the earlier `useRequestDeduplication`) -/

/-- State of the polling deduplication variant: `active` is the
`activeRequests` set of keys, `waiters` the callers parked on a polling
interval because their key was already active, and `invs` the invocations
of an underlying `requestFn`, tagged by key. -/
structure PollState where
  active : List String
  waiters : List String
  invs : List String
  deriving DecidableEq

/-- The polling cache at mount. -/
def PollState.init : PollState := ⟨[], [], []⟩

/-- `executeRequest(key, requestFn)` of the polling variant: if `key` is
already active, the caller parks on a 100ms polling interval (a waiter);
otherwise the key is marked active and `requestFn` is invoked. -/
def executeRequestPoll (s : PollState) (k : String) : PollState :=
  if s.active.contains k then
    { s with waiters := s.waiters ++ [k] }
  else
    { s with active := k :: s.active, invs := k :: s.invs }

/-- Completion of the request for `key`: the `finally` block removes the
key from the active set. -/
def settlePoll (s : PollState) (k : String) : PollState :=
  { s with active := s.active.filter (fun a => !(a == k)) }

/-- A tick of a parked caller while `key` is no longer active: the
interval is cleared and the waiter re-executes the request from scratch
(the source comment reads: re-execute the request since we do not have
the original result). -/
def wakePoll (s : PollState) (k : String) : PollState :=
  if s.waiters.contains k && !(s.active.contains k) then
    executeRequestPoll { s with waiters := s.waiters.erase k } k
  else s

/-! ## Timeout wrapper (`withTimeout`, `src/utils/promise.ts`) -/

/-- A settlement attempt delivered to the wrapper promise built by
`withTimeout`: the timer firing (its callback attempts
`reject(timeoutError)`) or the wrapped operation settling (its `then` and
`catch` attempt to settle the wrapper with the operation outcome). -/
inductive RaceEv (ε α : Type) where
  | timerFire
  | opSettled (o : Outcome ε α)
  deriving DecidableEq

/-- One settlement attempt against the wrapper promise: a promise latches
on its first settlement, and later `resolve` or `reject` calls are
ignored. -/
def attemptSettle (timeoutError : ε) (st : Option (Outcome ε α)) (e : RaceEv ε α) :
    Option (Outcome ε α) :=
  match st with
  | some o => some o
  | none =>
      match e with
      | .timerFire => some (Outcome.rejected timeoutError)
      | .opSettled o => some o

/-- The state of the wrapper promise after the given settlement attempts
are delivered in order (`none` while it is still pending). -/
def withTimeoutSettle (timeoutError : ε) (evs : List (RaceEv ε α)) :
    Option (Outcome ε α) :=
  evs.foldl (attemptSettle timeoutError) none

/-- The delivery schedule the race produces. The timer fires at `ms`; the
wrapped operation either settles at some time with some outcome, or never
settles. When the operation settles strictly before `ms`, its `finally`
runs `clearTimeout`, so only the operation settlement is delivered;
otherwise the timer task is queued no later than the settlement reaction,
so the timer fire is delivered first and the operation settlement, if
any, trails it. -/
def raceSchedule (ms : Nat) (op : Option (Nat × Outcome ε α)) : List (RaceEv ε α) :=
  match op with
  | none => [RaceEv.timerFire]
  | some (t, o) =>
      if t < ms then [RaceEv.opSettled o]
      else [RaceEv.timerFire, RaceEv.opSettled o]

/-- `withTimeout(promise, ms, timeoutError)`: the outcome of the wrapper
promise, where `op` is the settlement behaviour of the wrapped promise
(`none` if it never settles, or its settlement time and outcome). -/
def withTimeout (op : Option (Nat × Outcome ε α)) (ms : Nat) (timeoutError : ε) :
    Option (Outcome ε α) :=
  withTimeoutSettle timeoutError (raceSchedule ms op)

/-! ## Role constants and derived flags
(`src/lib/constants.ts`, `useAuth.tsx`) -/

/-- `USER_ROLES.SUPER_ADMIN` from `lib/constants.ts`. -/
def USER_ROLES_SUPER_ADMIN : String := "super_admin"

/-- `USER_ROLES.RESTAURANT_OWNER` from `lib/constants.ts`. -/
def USER_ROLES_RESTAURANT_OWNER : String := "restaurant_owner"

/-- The profile row fetched from the `profiles` table, restricted to the
fields the session layer reads: `id`, `role`, and the optional direct
`tenant_id`. The source types the profile `any`, so `role` is a free-form
string and `tenant_id` an optional string. -/
structure Profile where
  id : String
  role : String
  tenant_id : Option String
  deriving DecidableEq

/-- JavaScript truthiness of an optional string field: `null`,
`undefined` and the empty string are falsy. -/
def jsTruthy : Option String → Bool
  | none => false
  | some s => !(s == "")

/-- The derived flag `isAdmin`, computed as
`profile?.role === USER_ROLES.SUPER_ADMIN` (optional chaining makes a
null profile compare false). -/
def isAdmin (profile : Option Profile) : Bool :=
  match profile with
  | none => false
  | some p => p.role == USER_ROLES_SUPER_ADMIN

/-- The derived flag `isRestaurantOwner`, computed as
`profile?.role === USER_ROLES.RESTAURANT_OWNER`. -/
def isRestaurantOwner (profile : Option Profile) : Bool :=
  match profile with
  | none => false
  | some p => p.role == USER_ROLES_RESTAURANT_OWNER

/-! ## AuthProvider: auth-change handler, global safety timer, tenant
resolution (`src/hooks/useAuth.tsx`, both variants) -/

/-- The session delivered by an auth-change notification: `session.user`
is the optional user id (`session?.user` is falsy when absent). -/
structure Sess where
  user : Option String
  deriving DecidableEq

/-- The `\x7b data, error \x7d` payload returned by the profile
`select(...).single()` call when the underlying request completes without
rejecting. -/
structure FetchPayload where
  data : Option Profile
  error : Option String
  deriving DecidableEq

/-- The state tuple held by `AuthProvider`: `user`, `session`, `profile`,
`tenantId`, `loading`. -/
structure AuthState where
  user : Option String
  session : Option Sess
  profile : Option Profile
  tenantId : Option String
  loading : Bool
  deriving DecidableEq

/-- The provider state at mount: every identity field null, `loading`
true. -/
def AuthState.initial : AuthState := ⟨none, none, none, none, true⟩

/-- The `onAuthStateChange` handler of the second (timeout-wrapped)
variant, as a state transformer. `mounted` is the mounted flag at entry;
`mountedAfterFetch` its value when the awaited profile fetch settles
(false models an unmount during the await). `fetch` is the settlement of
`withTimeout(profilePromise, 3000, ...)`: `Except.ok` a payload when the
fetch completes, `Except.error` when it rejects (a thrown exception or
the 3 second timeout). The result is `Except.ok` of the new state; an
`Except.error` result would be a rejection escaping the handler, and
every branch below is `Except.ok` because the try/catch absorbs the
failure. -/
def onAuthStateChange2 (mounted mountedAfterFetch : Bool) (st : AuthState)
    (sess : Option Sess) (fetch : Except String FetchPayload) :
    Except String AuthState :=
  if !mounted then Except.ok st
  else
    let st1 : AuthState :=
      { st with session := sess, user := sess.bind (fun s => s.user) }
    match sess.bind (fun s => s.user) with
    | none =>
        Except.ok (if mounted then { st1 with profile := none, loading := false } else st1)
    | some _ =>
        match fetch with
        | Except.error _ =>
            Except.ok
              (if mountedAfterFetch then { st1 with profile := none, loading := false }
               else st1)
        | Except.ok payload =>
            if !mountedAfterFetch then Except.ok st1
            else if payload.error.isSome then
              Except.ok { st1 with profile := none, loading := false }
            else
              Except.ok { st1 with profile := payload.data, loading := false }

/-- The `onAuthStateChange` handler of the first (simplified) variant:
no timeout wrapper around the profile fetch, so `fetch` rejects only on a
thrown exception; the no-session branch also clears `tenantId`; on
success the tenant lookup is fired asynchronously and does not touch
`profile` or `loading`, so it is not part of this transformer. -/
def onAuthStateChange1 (mounted mountedAfterFetch : Bool) (st : AuthState)
    (sess : Option Sess) (fetch : Except String FetchPayload) :
    Except String AuthState :=
  if !mounted then Except.ok st
  else
    let st1 : AuthState :=
      { st with session := sess, user := sess.bind (fun s => s.user) }
    match sess.bind (fun s => s.user) with
    | none =>
        Except.ok
          (if mounted then { st1 with profile := none, tenantId := none, loading := false }
           else st1)
    | some _ =>
        match fetch with
        | Except.error _ =>
            Except.ok
              (if mountedAfterFetch then { st1 with profile := none, loading := false }
               else st1)
        | Except.ok payload =>
            if !mountedAfterFetch then Except.ok st1
            else if payload.error.isSome then
              Except.ok { st1 with profile := none, loading := false }
            else
              Except.ok { st1 with profile := payload.data, loading := false }

/-- The fixed ceiling of the global safety-net timer, first variant
(8 seconds). -/
def GLOBAL_TIMEOUT_MS_V1 : Nat := 8000

/-- The fixed ceiling of the global safety-net timer, second variant
(10 seconds). -/
def GLOBAL_TIMEOUT_MS_V2 : Nat := 10000

/-- The global safety-net timer callback (identical in both variants):
`if (mounted && loading) setLoading(false)`. `loadingAtMount` is the
value of `loading` captured by the closure of the callback — the value
from the render in which the effect ran, which is `true` for the mount
render since the state is initialised to `true`. -/
def globalTimeoutFire (mounted loadingAtMount : Bool) (st : AuthState) : AuthState :=
  if mounted && loadingAtMount then { st with loading := false } else st

/-- The deduplication key of the ownership lookup:
`tenant-lookup-$\x7bprofile.id\x7d`. -/
def tenantLookupKey (profileId : String) : String :=
  "tenant-lookup-" ++ profileId

/-- `tenant?.id || null`: the id of the looked-up row, with optional
chaining mapping a missing row to null and JavaScript `||` mapping an
empty id to null. -/
def jsIdOrNull (row : Option String) : Option String :=
  match row with
  | none => none
  | some id => if id == "" then none else some id

/-- `resolveTenant` of the second variant, run whenever `profile`
changes, as a function from the profile to the new `tenantId`. `lookup`
maps a deduplication key to the settlement of the deduplicated,
time-bounded ownership lookup issued under that key
(`withTimeout(executeRequest(key, ...), 3000, ...)`): `Except.ok` the
optional row id from `maybeSingle`, `Except.error` a thrown backend
error or the timeout. The component is taken as mounted throughout (the
mounted flag only gates whether the state write is applied). The
enclosing try/catch turns any lookup failure into a null tenant instead
of a propagated error, which is why the result type is a plain option. -/
def resolveTenant (profile : Option Profile)
    (lookup : String → Except String (Option String)) : Option String :=
  match profile with
  | none => none
  | some p =>
      if jsTruthy p.tenant_id then p.tenant_id
      else if p.role == USER_ROLES_RESTAURANT_OWNER then
        match lookup (tenantLookupKey p.id) with
        | Except.ok row => jsIdOrNull row
        | Except.error _ => none
      else none

/-! ## POS page route guard (`src/unnamed/part_001`, `POSSystem`) -/

/-- The tenant row the POS page fetches by slug:
`select(id, subscription_plan)`. -/
structure TenantRow where
  id : String
  subscription_plan : String
  deriving DecidableEq

/-- What the POS page renders: the loading spinner, the timeout screen,
a `Navigate` redirect to a route, the not-found screen, or the POS
dashboard itself. -/
inductive PosView where
  | loadingView
  | timeoutView
  | navigate (target : String)
  | notFoundView
  | posDashboard
  deriving DecidableEq

/-- Template interpolation of the optional `slug` route parameter. -/
def slugText : Option String → String
  | some s => s
  | none => "undefined"

/-- `isRestaurantOwner && tenantId && tenant.id !== tenantId`: the
ownership-mismatch condition, with the truthiness test on `tenantId`. -/
def ownershipMismatch (isOwner : Bool) (tenantId : Option String) (tid : String) : Bool :=
  isOwner &&
    (match tenantId with
     | some owned => !(owned == "") && !(tid == owned)
     | none => false)

/-- The inputs of one render of the POS page: the route slug, whether a
user is present, the context flags, the resolved own tenant id, the
tenant row fetched by slug, and the local page state. -/
structure PosProps where
  slug : Option String
  user : Bool
  loading : Bool
  isAdmin : Bool
  isRestaurantOwner : Bool
  tenantId : Option String
  tenant : Option TenantRow
  checkingSubscription : Bool
  loadingTimeout : Bool
  deriving DecidableEq

/-- The render decision of the POS page, in source order: the loading
spinner while still loading and not timed out; the timeout screen when
timed out while still loading; redirect to `/auth` when unauthenticated;
for a non-admin with a fetched tenant, redirect to the access page when
the plan is not premium, else redirect to `/dashboard` on an ownership
mismatch; the not-found screen when the tenant lookup definitively found
nothing; otherwise the POS dashboard. -/
def POSSystem (p : PosProps) : PosView :=
  let isStillLoading := (p.loading || p.checkingSubscription) && !p.loadingTimeout
  let shouldShowTimeout := p.loadingTimeout && (p.loading || p.checkingSubscription)
  if isStillLoading then PosView.loadingView
  else if shouldShowTimeout then PosView.timeoutView
  else if !p.user then PosView.navigate "/auth"
  else
    match p.tenant with
    | some t =>
        if !p.isAdmin then
          if !(t.subscription_plan == "premium") then
            PosView.navigate ("/pos-access/" ++ slugText p.slug)
          else if ownershipMismatch p.isRestaurantOwner p.tenantId t.id then
            PosView.navigate "/dashboard"
          else PosView.posDashboard
        else PosView.posDashboard
    | none =>
        if !p.checkingSubscription && jsTruthy p.slug then PosView.notFoundView
        else PosView.posDashboard

/-! ## Helper lemmas -/

/-- Deleting one key from the `activeRequests` map leaves lookups of any
other key unchanged. -/
theorem lookupA_deleteKey (k k' : String) (h : k' ≠ k) :
    ∀ l : List (String × Nat), lookupA (deleteKey k' l) k = lookupA l k := by
  intro l
  induction l with
  | nil => rfl
  | cons kv rest ih =>
      by_cases h1 : kv.1 = k'
      · simp [deleteKey, h1, lookupA, ih, h]
      · simp only [deleteKey, beq_iff_eq, h1, if_false]
        unfold lookupA
        by_cases h2 : kv.1 = k
        · simp [h2]
        · simp [h2, ih]

/-- One cache event that is not a settlement of `k` keeps the in-flight
promise for `k` registered and does not add an invocation for `k`. -/
theorem shareStep_window (s : ShareState) (k : String) (p : Nat) (e : DedupEv)
    (hact : lookupActive s k = some p) (hne : e ≠ DedupEv.settle k) :
    lookupActive (shareStep s e) k = some p ∧
      countKey k (shareStep s e).invs = countKey k s.invs := by
  cases e with
  | call k' =>
      cases hl : lookupActive s k' with
      | some q =>
          have hstep : shareStep s (DedupEv.call k') = s := by
            show (executeRequest s k').2 = s
            unfold executeRequest
            rw [hl]
          rw [hstep]
          exact ⟨hact, rfl⟩
      | none =>
          have hkk : (k' == k) = false := by
            refine beq_eq_false_iff_ne.mpr ?_
            intro heq
            rw [heq, hact] at hl
            exact Option.noConfusion hl
          have hstep : shareStep s (DedupEv.call k')
              = ⟨(k', s.nextId) :: s.active, s.nextId + 1, k' :: s.invs⟩ := by
            show (executeRequest s k').2 = _
            unfold executeRequest
            rw [hl]
          rw [hstep]
          constructor
          · show lookupA ((k', s.nextId) :: s.active) k = some p
            simp only [lookupA, hkk]
            exact hact
          · show countKey k (k' :: s.invs) = countKey k s.invs
            simp [countKey, hkk]
  | settle k' =>
      have hkk : k' ≠ k := by
        intro heq
        exact hne (by rw [heq])
      constructor
      · show lookupA (deleteKey k' s.active) k = some p
        rw [lookupA_deleteKey k k' hkk]
        exact hact
      · rfl

/-- While no settlement for `k` is delivered, the in-flight promise for
`k` persists through any sequence of cache events and the invocation
count for `k` does not change. -/
theorem shareRun_window (k : String) (p : Nat) :
    ∀ (evs : List DedupEv) (s : ShareState),
      lookupActive s k = some p → DedupEv.settle k ∉ evs →
      lookupActive (shareRun s evs) k = some p ∧
        countKey k (shareRun s evs).invs = countKey k s.invs := by
  intro evs
  induction evs with
  | nil =>
      intro s hact _
      exact ⟨hact, rfl⟩
  | cons e rest ih =>
      intro s hact hns
      have hne : e ≠ DedupEv.settle k := by
        intro heq
        exact hns (heq ▸ List.mem_cons_self e rest)
      have hstep := shareStep_window s k p e hact hne
      have hns' : DedupEv.settle k ∉ rest := fun hmem => hns (List.mem_cons_of_mem e hmem)
      have hrun := ih (shareStep s e) hstep.1 hns'
      have hcons : shareRun s (e :: rest) = shareRun (shareStep s e) rest := rfl
      rw [hcons]
      exact ⟨hrun.1, by rw [hrun.2, hstep.2]⟩

/-- A call for a key with an in-flight promise returns that promise and
leaves the cache unchanged. -/
theorem executeRequest_hit (s : ShareState) (k : String) (p : Nat)
    (h : lookupActive s k = some p) : executeRequest s k = (p, s) := by
  unfold executeRequest
  rw [h]

/-- A wrapper promise that has latched an outcome ignores every further
settlement attempt. -/
theorem attemptSettle_latched (E : ε) (o : Outcome ε α) (evs : List (RaceEv ε α)) :
    List.foldl (attemptSettle E) (some o) evs = some o := by
  induction evs with
  | nil => rfl
  | cons e rest ih => simpa [attemptSettle] using ih

/-! ## Claims -/

/-- Claim C1: in the promise-sharing deduplication cache, a call
`executeRequest key` made while the operation for `key` is still
outstanding (its settlement has not been delivered) is returned the very
promise created by the first call — a promise settles once, so both
callers observe the same eventual resolution or rejection — the cache
state is left unchanged by the late call, and over the whole batch the
underlying operation is invoked exactly once for `key`. `evs` is any
interleaving of cache events between the two calls that does not settle
`key`. -/
theorem executeRequest_share_single_invocation (s : ShareState) (k : String)
    (evs : List DedupEv)
    (hfresh : lookupActive s k = none)
    (hwin : DedupEv.settle k ∉ evs) :
    executeRequest (shareRun (executeRequest s k).2 evs) k
        = ((executeRequest s k).1, shareRun (executeRequest s k).2 evs) ∧
      countKey k (shareRun (executeRequest s k).2 evs).invs = countKey k s.invs + 1 := by
  have h0 : executeRequest s k
      = (s.nextId, ⟨(k, s.nextId) :: s.active, s.nextId + 1, k :: s.invs⟩) := by
    simp [executeRequest, hfresh]
  have h1 : lookupActive (executeRequest s k).2 k = some s.nextId := by
    rw [h0]
    simp [lookupActive, lookupA]
  have h2 := shareRun_window k s.nextId evs (executeRequest s k).2 h1 hwin
  constructor
  · have hfst : (executeRequest s k).1 = s.nextId := by rw [h0]
    rw [hfst]
    exact executeRequest_hit _ _ _ h2.1
  · rw [h2.2, h0]
    simp [countKey, Nat.add_comm]

/-- Witness for C1: a fresh call for the profile key, followed by a
duplicate call for it and an unrelated lookup that starts and settles,
returns the original promise and invokes the operation once. -/
theorem executeRequest_share_single_invocation_witness :
    lookupActive ShareState.init "profile-u1" = none ∧
    DedupEv.settle "profile-u1"
        ∉ [DedupEv.call "profile-u1", DedupEv.call "tenant-lookup-p1",
           DedupEv.settle "tenant-lookup-p1"] ∧
    (executeRequest
          (shareRun (executeRequest ShareState.init "profile-u1").2
            [DedupEv.call "profile-u1", DedupEv.call "tenant-lookup-p1",
             DedupEv.settle "tenant-lookup-p1"]) "profile-u1"
        = ((executeRequest ShareState.init "profile-u1").1,
            shareRun (executeRequest ShareState.init "profile-u1").2
              [DedupEv.call "profile-u1", DedupEv.call "tenant-lookup-p1",
               DedupEv.settle "tenant-lookup-p1"]) ∧
      countKey "profile-u1"
          (shareRun (executeRequest ShareState.init "profile-u1").2
            [DedupEv.call "profile-u1", DedupEv.call "tenant-lookup-p1",
             DedupEv.settle "tenant-lookup-p1"]).invs
        = countKey "profile-u1" ShareState.init.invs + 1) :=
  ⟨by decide, by decide,
    executeRequest_share_single_invocation ShareState.init "profile-u1"
      [DedupEv.call "profile-u1", DedupEv.call "tenant-lookup-p1",
       DedupEv.settle "tenant-lookup-p1"] (by decide) (by decide)⟩

/-- Claim C6: the polling variant is not behaviourally equivalent to the
promise-sharing variant. In the interleaving where a second call for the
key arrives while the first is in flight, the first settles, and the
parked caller wakes, the polling variant invokes the underlying
operation twice, while the promise-sharing variant invokes it once on
the same interleaving. -/
theorem executeRequest_polling_reinvokes :
    countKey "k"
        (wakePoll
          (settlePoll (executeRequestPoll (executeRequestPoll PollState.init "k") "k") "k")
          "k").invs = 2 ∧
    countKey "k"
        (settleRequest
          (shareStep (shareStep ShareState.init (DedupEv.call "k")) (DedupEv.call "k"))
          "k").invs = 1 ∧
    (2 : Nat) ≠ 1 := by
  refine ⟨by decide, by decide, by decide⟩

/-- Claim C2: the timeout wrapper settles with the outcome of whichever
of the wrapped operation and the timer settles first, and the later
settlement of the loser changes nothing. If the operation settles at `t`
strictly before the `ms` deadline, the wrapper settles with the
operation outcome (resolution or rejection alike); if the deadline
elapses first, or the operation never settles, the wrapper rejects with
exactly the supplied timeout error; and once the wrapper has latched,
any trailing settlement attempts are ignored. -/
theorem withTimeout_race_spec {ε α : Type} (ms t : Nat) (o : Outcome ε α) (E : ε)
    (rest : List (RaceEv ε α)) :
    (t < ms → withTimeout (some (t, o)) ms E = some o) ∧
    (ms ≤ t → withTimeout (some (t, o)) ms E = some (Outcome.rejected E)) ∧
    (withTimeout (none : Option (Nat × Outcome ε α)) ms E = some (Outcome.rejected E)) ∧
    (withTimeoutSettle E (RaceEv.opSettled o :: rest) = some o) ∧
    (withTimeoutSettle E (RaceEv.timerFire :: rest) = some (Outcome.rejected E)) := by
  refine ⟨?_, ?_, ?_, ?_, ?_⟩
  · intro hlt
    simp [withTimeout, raceSchedule, hlt, withTimeoutSettle, attemptSettle]
  · intro hge
    have hnlt : ¬ t < ms := Nat.not_lt.mpr hge
    simp [withTimeout, raceSchedule, hnlt, withTimeoutSettle, attemptSettle]
  · simp [withTimeout, raceSchedule, withTimeoutSettle, attemptSettle]
  · show List.foldl (attemptSettle E) (attemptSettle E none (RaceEv.opSettled o)) rest = some o
    rw [show attemptSettle E none (RaceEv.opSettled o) = some o from rfl]
    exact attemptSettle_latched E o rest
  · show List.foldl (attemptSettle E)
        (attemptSettle E none (RaceEv.timerFire : RaceEv ε α)) rest
        = some (Outcome.rejected E)
    rw [show attemptSettle E none (RaceEv.timerFire : RaceEv ε α)
        = some (Outcome.rejected E) from rfl]
    exact attemptSettle_latched E (Outcome.rejected E) rest

/-- Witness for C2: with a 5ms deadline, an operation resolving 42 at
3ms wins the race, one resolving at 7ms loses to the timer, and a timer
fire followed by a late settlement still rejects with the timeout
error. -/
theorem withTimeout_race_spec_witness :
    (3 < 5 ∧
      withTimeout (some (3, Outcome.resolved (42 : Nat))) 5 "timed out"
        = some (Outcome.resolved 42)) ∧
    (5 ≤ 7 ∧
      withTimeout (some (7, Outcome.resolved (42 : Nat))) 5 "timed out"
        = some (Outcome.rejected "timed out")) ∧
    withTimeoutSettle "timed out"
        [RaceEv.timerFire, RaceEv.opSettled (Outcome.resolved (42 : Nat))]
      = some (Outcome.rejected "timed out") :=
  ⟨⟨by decide,
      (withTimeout_race_spec 5 3 (Outcome.resolved 42) "timed out" []).1 (by decide)⟩,
    ⟨by decide,
      (withTimeout_race_spec 5 7 (Outcome.resolved 42) "timed out" []).2.1 (by decide)⟩,
    (withTimeout_race_spec 5 7 (Outcome.resolved (42 : Nat)) "timed out"
        [RaceEv.opSettled (Outcome.resolved 42)]).2.2.2.2⟩

/-- Claim C3: for every auth-state transition delivered while the
provider is mounted (and still mounted when the fetch settles) — no
session, profile fetch success, error payload, exception, or timeout —
the handler resolves and the resulting `loading` flag is false, in both
variants; and the global safety-net timer callback, firing while
mounted, forces `loading` to false whatever the state, so even a hung
fetch cannot keep `loading` true past the fixed ceiling. -/
theorem loading_reaches_false (st : AuthState) (sess : Option Sess)
    (fetch : Except String FetchPayload) :
    (onAuthStateChange2 true true st sess fetch).map AuthState.loading = Except.ok false ∧
    (onAuthStateChange1 true true st sess fetch).map AuthState.loading = Except.ok false ∧
    (globalTimeoutFire true true st).loading = false := by
  refine ⟨?_, ?_, ?_⟩
  · unfold onAuthStateChange2
    cases hsu : sess.bind (fun s => s.user) with
    | none => simp [Except.map]
    | some u =>
        cases fetch with
        | error e => simp [Except.map]
        | ok payload => cases hpe : payload.error.isSome <;> simp [Except.map, hpe]
  · unfold onAuthStateChange1
    cases hsu : sess.bind (fun s => s.user) with
    | none => simp [Except.map]
    | some u =>
        cases fetch with
        | error e => simp [Except.map]
        | ok payload => cases hpe : payload.error.isSome <;> simp [Except.map, hpe]
  · simp [globalTimeoutFire]

/-- Claim C5: when the profile fetch fails in any of its modes — the
request completes with an error payload, or it rejects with an exception
or the timeout — the handler of either variant absorbs the failure:
it still resolves (`Except.ok`, nothing is thrown past the context
boundary), the new `profile` is null and `loading` is false. -/
theorem profile_fetch_failure_absorbed (st : AuthState) (sess : Sess) (u : String)
    (hu : sess.user = some u)
    (fetch : Except String FetchPayload)
    (hfail : (∃ e, fetch = Except.error e) ∨
      ∃ payload, fetch = Except.ok payload ∧ payload.error.isSome = true) :
    (∃ st2, onAuthStateChange2 true true st (some sess) fetch = Except.ok st2 ∧
        st2.profile = none ∧ st2.loading = false) ∧
    (∃ st1, onAuthStateChange1 true true st (some sess) fetch = Except.ok st1 ∧
        st1.profile = none ∧ st1.loading = false) := by
  obtain ⟨e, rfl⟩ | ⟨payload, rfl, herr⟩ := hfail
  · constructor
    · refine ⟨{ st with
                  session := some sess
                  user := some u
                  profile := none
                  loading := false }, ?_, rfl, rfl⟩
      unfold onAuthStateChange2
      simp [hu]
    · refine ⟨{ st with
                  session := some sess
                  user := some u
                  profile := none
                  loading := false }, ?_, rfl, rfl⟩
      unfold onAuthStateChange1
      simp [hu]
  · constructor
    · refine ⟨{ st with
                  session := some sess
                  user := some u
                  profile := none
                  loading := false }, ?_, rfl, rfl⟩
      unfold onAuthStateChange2
      simp [hu, herr]
    · refine ⟨{ st with
                  session := some sess
                  user := some u
                  profile := none
                  loading := false }, ?_, rfl, rfl⟩
      unfold onAuthStateChange1
      simp [hu, herr]

/-- Witness for C5: from the initial state, a timed-out profile fetch for
a present session leaves both variants resolved with a null profile and
`loading` false. -/
theorem profile_fetch_failure_absorbed_witness :
    (Sess.mk (some "u1")).user = some "u1" ∧
    ((∃ st2, onAuthStateChange2 true true AuthState.initial (some ⟨some "u1"⟩)
          (Except.error "Profile fetch timed out") = Except.ok st2 ∧
        st2.profile = none ∧ st2.loading = false) ∧
      ∃ st1, onAuthStateChange1 true true AuthState.initial (some ⟨some "u1"⟩)
          (Except.error "Profile fetch timed out") = Except.ok st1 ∧
        st1.profile = none ∧ st1.loading = false) :=
  ⟨rfl,
    profile_fetch_failure_absorbed AuthState.initial ⟨some "u1"⟩ "u1" rfl
      (Except.error "Profile fetch timed out")
      (Or.inl ⟨"Profile fetch timed out", rfl⟩)⟩

/-- Claim C4: tenant resolution follows the three-case policy. With a
truthy direct `tenant_id` the tenant is that value; otherwise, for a
restaurant owner, the tenant comes from the deduplicated, time-bounded
ownership lookup keyed `tenant-lookup-` + profile id (a found row with a
nonempty id is taken); otherwise the tenant is null; a lookup that
reports no row yields null, and a failed or timed-out lookup yields null
rather than a propagated error; a null profile also clears the
tenant. -/
theorem resolveTenant_policy (p : Profile)
    (lookup : String → Except String (Option String)) :
    (jsTruthy p.tenant_id = true → resolveTenant (some p) lookup = p.tenant_id) ∧
    (jsTruthy p.tenant_id = false → p.role = USER_ROLES_RESTAURANT_OWNER →
      ∀ tid, lookup (tenantLookupKey p.id) = Except.ok (some tid) → tid ≠ "" →
        resolveTenant (some p) lookup = some tid) ∧
    (jsTruthy p.tenant_id = false → p.role = USER_ROLES_RESTAURANT_OWNER →
      lookup (tenantLookupKey p.id) = Except.ok none →
        resolveTenant (some p) lookup = none) ∧
    (jsTruthy p.tenant_id = false → p.role = USER_ROLES_RESTAURANT_OWNER →
      ∀ e, lookup (tenantLookupKey p.id) = Except.error e →
        resolveTenant (some p) lookup = none) ∧
    (jsTruthy p.tenant_id = false → p.role ≠ USER_ROLES_RESTAURANT_OWNER →
      resolveTenant (some p) lookup = none) ∧
    resolveTenant none lookup = none := by
  refine ⟨?_, ?_, ?_, ?_, ?_, rfl⟩
  · intro htid
    simp [resolveTenant, htid]
  · intro htid hrole tid hlk htid'
    have htidb : (tid == "") = false := beq_eq_false_iff_ne.mpr htid'
    simp [resolveTenant, htid, hrole, hlk, jsIdOrNull, htidb]
  · intro htid hrole hlk
    simp [resolveTenant, htid, hrole, hlk, jsIdOrNull]
  · intro htid hrole e hlk
    simp [resolveTenant, htid, hrole, hlk]
  · intro htid hrole
    have hroleb : (p.role == USER_ROLES_RESTAURANT_OWNER) = false :=
      beq_eq_false_iff_ne.mpr hrole
    simp [resolveTenant, htid, hroleb]

/-- Witness for C4: a staff profile with a direct tenant takes it; an
owner profile takes the looked-up id under its own key; an owner whose
lookup times out, and an admin profile, get a null tenant. -/
theorem resolveTenant_policy_witness :
    (jsTruthy (Profile.mk "p2" "staff" (some "t9")).tenant_id = true ∧
      resolveTenant (some ⟨"p2", "staff", some "t9"⟩)
          (fun _ => Except.error "unused") = some "t9") ∧
    (resolveTenant (some ⟨"p1", "restaurant_owner", none⟩)
        (fun k => if k == "tenant-lookup-p1" then Except.ok (some "t1")
                  else Except.error "wrong key") = some "t1") ∧
    (resolveTenant (some ⟨"p1", "restaurant_owner", none⟩)
        (fun _ => Except.error "Tenant lookup timed out") = none) ∧
    (resolveTenant (some ⟨"p3", "super_admin", none⟩)
        (fun _ => Except.ok (some "t1")) = none) :=
  ⟨⟨by decide,
      (resolveTenant_policy ⟨"p2", "staff", some "t9"⟩ (fun _ => Except.error "unused")).1
        (by decide)⟩,
    (resolveTenant_policy ⟨"p1", "restaurant_owner", none⟩
          (fun k => if k == "tenant-lookup-p1" then Except.ok (some "t1")
                    else Except.error "wrong key")).2.1
      (by decide) rfl "t1" rfl (by decide),
    (resolveTenant_policy ⟨"p1", "restaurant_owner", none⟩
          (fun _ => Except.error "Tenant lookup timed out")).2.2.2.1
      (by decide) rfl "Tenant lookup timed out" rfl,
    (resolveTenant_policy ⟨"p3", "super_admin", none⟩
          (fun _ => Except.ok (some "t1"))).2.2.2.2.1
      (by decide) (by decide)⟩

/-- Claim C7: an authenticated non-admin on the POS page, once loading
and the subscription check have finished and the slug resolved to a
tenant whose plan is not premium, is redirected to the access/upgrade
page for that slug. -/
theorem POSSystem_premium_gate (p : PosProps) (t : TenantRow) (sl : String)
    (huser : p.user = true) (hadmin : p.isAdmin = false)
    (hload : p.loading = false) (hcheck : p.checkingSubscription = false)
    (hslug : p.slug = some sl) (htenant : p.tenant = some t)
    (hplan : t.subscription_plan ≠ "premium") :
    POSSystem p = PosView.navigate ("/pos-access/" ++ sl) := by
  have hplanb : (t.subscription_plan == "premium") = false := beq_eq_false_iff_ne.mpr hplan
  simp [POSSystem, huser, hadmin, hload, hcheck, hslug, htenant, hplanb, slugText]

/-- Witness for C7: a restaurant owner of the free-plan tenant behind the
slug is sent to the access page. -/
theorem POSSystem_premium_gate_witness :
    POSSystem ⟨some "demo", true, false, false, true, some "tA",
        some ⟨"tA", "free"⟩, false, false⟩
      = PosView.navigate ("/pos-access/" ++ "demo") :=
  POSSystem_premium_gate _ ⟨"tA", "free"⟩ "demo" rfl rfl rfl rfl rfl rfl (by decide)

/-- Claim C8: an authenticated non-admin restaurant owner whose own
resolved tenant differs from the (premium) tenant behind the URL slug is
redirected to the generic dashboard. -/
theorem POSSystem_ownership_gate (p : PosProps) (t : TenantRow) (owned : String)
    (huser : p.user = true) (hadmin : p.isAdmin = false)
    (howner : p.isRestaurantOwner = true)
    (hload : p.loading = false) (hcheck : p.checkingSubscription = false)
    (htenant : p.tenant = some t) (hplan : t.subscription_plan = "premium")
    (hown : p.tenantId = some owned) (hne : owned ≠ "")
    (hmismatch : t.id ≠ owned) :
    POSSystem p = PosView.navigate "/dashboard" := by
  have hneb : (owned == "") = false := beq_eq_false_iff_ne.mpr hne
  have hmmb : (t.id == owned) = false := beq_eq_false_iff_ne.mpr hmismatch
  simp [POSSystem, huser, hadmin, howner, hload, hcheck, htenant, hplan, hown,
    ownershipMismatch, hneb, hmmb]

/-- Witness for C8: an owner of tenant tA visiting the premium tenant tB
behind the slug is sent to the dashboard. -/
theorem POSSystem_ownership_gate_witness :
    POSSystem ⟨some "other", true, false, false, true, some "tA",
        some ⟨"tB", "premium"⟩, false, false⟩
      = PosView.navigate "/dashboard" :=
  POSSystem_ownership_gate _ ⟨"tB", "premium"⟩ "tA" rfl rfl rfl rfl rfl rfl rfl rfl
    (by decide) (by decide)

/-- Claim C9: for an authenticated admin the POS page never issues the
subscription-tier redirect nor the ownership redirect — indeed it never
issues any redirect — whatever the fetched tenant, its plan, the slug,
or the mismatch with the admin tenant id: the admin bypass covers both
checks. -/
theorem POSSystem_admin_bypass (p : PosProps)
    (huser : p.user = true) (hadmin : p.isAdmin = true) :
    (∀ sl, POSSystem p ≠ PosView.navigate ("/pos-access/" ++ sl)) ∧
    POSSystem p ≠ PosView.navigate "/dashboard" := by
  have hnav : ∀ r, POSSystem p ≠ PosView.navigate r := by
    intro r h
    unfold POSSystem at h
    simp only [huser, hadmin, Bool.not_true] at h
    repeat' split at h
    all_goals simp_all
  exact ⟨fun sl => hnav ("/pos-access/" ++ sl), hnav "/dashboard"⟩

/-- Witness for C9: an admin visiting a free-plan tenant with a
mismatched own tenant id is neither sent to the access page nor to the
dashboard. -/
theorem POSSystem_admin_bypass_witness :
    (∀ sl, POSSystem ⟨some "demo", true, false, true, false, some "tA",
          some ⟨"tB", "free"⟩, false, false⟩
        ≠ PosView.navigate ("/pos-access/" ++ sl)) ∧
    POSSystem ⟨some "demo", true, false, true, false, some "tA",
        some ⟨"tB", "free"⟩, false, false⟩
      ≠ PosView.navigate "/dashboard" :=
  POSSystem_admin_bypass _ rfl rfl

/-- Claim C10: the derived flags are equality tests of the single field
`profile.role` against the two distinct role constants, so they are
never both true, and both are false when the profile is null. -/
theorem role_flags_exclusive (profile : Option Profile) :
    (¬ (isAdmin profile = true ∧ isRestaurantOwner profile = true)) ∧
    (profile = none → isAdmin profile = false ∧ isRestaurantOwner profile = false) ∧
    USER_ROLES_SUPER_ADMIN ≠ USER_ROLES_RESTAURANT_OWNER := by
  refine ⟨?_, ?_, by decide⟩
  · rintro ⟨ha, ho⟩
    cases profile with
    | none => exact Bool.noConfusion ha
    | some p =>
        simp only [isAdmin, beq_iff_eq] at ha
        simp only [isRestaurantOwner, beq_iff_eq] at ho
        rw [ha] at ho
        exact absurd ho (by decide)
  · rintro rfl
    exact ⟨rfl, rfl⟩

/-- Witness for C10: at a null profile both flags are false, and at a
concrete admin profile the flags are not both true. -/
theorem role_flags_exclusive_witness :
    (isAdmin none = false ∧ isRestaurantOwner none = false) ∧
    ¬ (isAdmin (some ⟨"p1", "super_admin", none⟩) = true ∧
        isRestaurantOwner (some ⟨"p1", "super_admin", none⟩) = true) :=
  ⟨(role_flags_exclusive none).2.1 rfl,
    (role_flags_exclusive (some ⟨"p1", "super_admin", none⟩)).1⟩

end OrderWhisperer
